import Mathlib

/-!
Shallow embedding of the match-scoring engine of `src/services/job_matcher.py`
(class `JobMatcher`) over the data model of `src/models/data_models.py`.

Modelling conventions:
* Python floats are modelled as exact rationals (`ℚ`); the decimal literals of
  the source (0.6, 0.25, 0.15, ...) are exact decimal fractions here.
* `experience_years` and `experience_required` are Python `int`s, modelled as `Int`.
* The TF-IDF vectorization plus cosine similarity performed by the external
  sklearn library (job_matcher.py:109-110) is modelled as an abstract oracle
  `tfidf : String → String → Option ℚ` applied to the two joined skill texts:
  `some s` means the external call returned similarity `s`, `none` means it
  raised (which the source's bare `except:` turns into the fallback).
* The LangChain LLM call `self.chain.run(...)` (job_matcher.py:300-311) is
  modelled as an abstract outcome `chain_run : Except String AnalysisData`:
  `Except.ok d` is a successful parsed response, `Except.error e` an
  exception whose `str(e)` text is `e`.
* Python's local mutable `details` dictionaries are modelled as records with
  the same field names.
-/

/-- Prefix test over characters: used to build Python's substring operator. -/
def charsPre : List Char → List Char → Bool
  | [], _ => true
  | _ :: _, [] => false
  | a :: as, b :: bs => a == b && charsPre as bs

/-- Python's substring containment over characters: a prefix match at some
suffix of the haystack.  The empty needle is contained in everything, as in
Python. -/
def charsIn (needle : List Char) : List Char → Bool
  | [] => needle.isEmpty
  | b :: bs => charsPre needle (b :: bs) || charsIn needle bs

/-- Python's `needle in hay` on strings. -/
def strContains (needle hay : String) : Bool :=
  charsIn needle.data hay.data


/-- Python's str.lower, rebuilt as a character-list map so that it reduces in
the kernel (the byte-position recursion of String.map does not).  Like the
source's `.lower()`, it lowercases the ASCII range, which is all the engine's
keyword tests rely on. -/
def pyLower (s : String) : String := ⟨s.data.map Char.toLower⟩

/-- Python's str.strip: drop leading and trailing whitespace. -/
def pyStrip (s : String) : String :=
  ⟨((s.data.dropWhile Char.isWhitespace).reverse.dropWhile Char.isWhitespace).reverse⟩

/-- Python's builtin `min` on two numbers, written so that it reduces in the
kernel (Mathlib's lattice `min` on `ℚ` does not). -/
def pymin (a b : ℚ) : ℚ := if a ≤ b then a else b

/-- Python's builtin `max` on two numbers, kernel-reducible. -/
def pymax (a b : ℚ) : ℚ := if a ≤ b then b else a

/-- CVData from `src/models/data_models.py:11`.  The fields `parsed_data` and
`upload_date` are never read by the matcher and are omitted. -/
structure CVData where
  id : String
  name : String
  content : String
  skills : List String
  experience_years : Int
  education : List String
  certifications : List String
  job_titles : List String
  industries : List String

/-- JobPosting from `src/models/data_models.py:24` (`scraped_date` and
`raw_data` omitted: never read by the matcher). -/
structure JobPosting where
  id : String
  url : String
  title : String
  company : String
  location : String
  description : String
  requirements : List String
  skills_required : List String
  experience_required : Int
  salary_range : Option String
  job_type : Option String
  industry : Option String

/-- RecommendationStatus from `src/models/data_models.py:6`. -/
inductive RecommendationStatus where
  | apply
  | skip
  | maybe
deriving DecidableEq

/-- MatchScore from `src/models/data_models.py:40`.  The pydantic range
validators (ge=0, le=100) are not part of the record; the range facts are
proved as theorems instead. -/
structure MatchScore where
  qualification_score : ℚ
  competition_score : ℚ
  strategic_score : ℚ
  overall_score : ℚ
  confidence : ℚ

/-- The typed shape of the semantic-analysis payload `analysis_data`
consumed by `analyze_job_match` (the keys produced at
job_matcher.py:74-82 and 313-321). -/
structure AnalysisData where
  qualification_analysis : String
  competition_analysis : String
  strategic_analysis : String
  key_matches : List String
  gaps : List String
  reasoning : String
  confidence_factors : List String

/-- The `details` dictionary of `_calculate_qualification_score`
(job_matcher.py:165-172). -/
structure QualificationDetails where
  skill_similarity : ℚ
  experience_match : ℚ
  education_bonus : ℚ
  certification_bonus : ℚ
  base_score : ℚ
  bonus_score : ℚ

/-- The `details` dictionary of `_calculate_competition_score`
(job_matcher.py:207-213). -/
structure CompetitionDetails where
  base_competition : ℚ
  overqualification_penalty : ℚ
  unique_skills_bonus : ℚ
  industry_experience_bonus : ℚ
  leadership_bonus : ℚ

/-- The `details` dictionary of `_calculate_strategic_score`
(job_matcher.py:253-260). -/
structure StrategicDetails where
  base_strategic : ℚ
  career_growth_potential : ℚ
  skill_development_bonus : ℚ
  company_size_fit : ℚ
  current_level : ℕ
  target_level : ℕ

/-- The `metadata` dictionary assembled at job_matcher.py:360-365. -/
structure AnalysisMetadata where
  qualification_details : QualificationDetails
  competition_details : CompetitionDetails
  strategic_details : StrategicDetails
  analysis_data : AnalysisData

/-- JobAnalysis from `src/models/data_models.py:47` (`analysis_date`
omitted: a timestamp never read by the engine). -/
structure JobAnalysis where
  id : String
  cv_id : String
  job_id : String
  match_score : MatchScore
  recommendation : RecommendationStatus
  reasoning : String
  key_matches : List String
  gaps : List String
  metadata : AnalysisMetadata

/-- JobMatcher._basic_skill_match (job_matcher.py:115-126).  The nested
loop with `break` counts the required skills that match some candidate
skill by substring containment in either direction, after lowercasing and
stripping both sides. -/
def basic_skill_match (cv_skills job_skills : List String) : ℚ :=
  let cv_skills_lower := cv_skills.map (fun skill => pyStrip (pyLower skill))
  let job_skills_lower := job_skills.map (fun skill => pyStrip (pyLower skill))
  let matched : ℕ := job_skills_lower.countP
    (fun job_skill => cv_skills_lower.any
      (fun cv_skill => strContains job_skill cv_skill || strContains cv_skill job_skill))
  if job_skills_lower.isEmpty then 0 else (matched : ℚ) / (job_skills_lower.length : ℚ)

/-- JobMatcher._calculate_skill_similarity (job_matcher.py:101-113).
`tfidf` abstracts the external sklearn vectorize-and-cosine call on the two
joined skill texts; `none` models that call raising, which the source's bare
`except:` converts into the `_basic_skill_match` fallback. -/
def calculate_skill_similarity (tfidf : String → String → Option ℚ)
    (cv_skills job_skills : List String) : ℚ :=
  if cv_skills.isEmpty || job_skills.isEmpty then 0
  else
    match tfidf (String.intercalate " " cv_skills) (String.intercalate " " job_skills) with
    | some similarity => similarity
    | none => basic_skill_match cv_skills job_skills

/-- JobMatcher._calculate_experience_match (job_matcher.py:128-141). -/
def calculate_experience_match (cv_experience job_experience : Int) : ℚ :=
  if job_experience = 0 then 1
  else if cv_experience ≥ job_experience then 1
  else if (cv_experience : ℚ) ≥ (job_experience : ℚ) * 0.8 then 0.8
  else if (cv_experience : ℚ) ≥ (job_experience : ℚ) * 0.6 then 0.6
  else if (cv_experience : ℚ) ≥ (job_experience : ℚ) * 0.4 then 0.4
  else 0.2

/-- The `education_bonus` local of `_calculate_qualification_score`
(job_matcher.py:147-149).  Python's `any(edu for edu in cv.education if C(edu))`
tests the truthiness of the yielded strings, but any entry satisfying the
keyword-substring condition is necessarily nonempty, so the test is an
existence check; the leading `cv.education and` truthiness guard is kept. -/
def education_bonus (cv : CVData) : ℚ :=
  if !cv.education.isEmpty &&
      cv.education.any (fun edu =>
        ["bachelor", "master", "phd", "degree"].any (fun keyword => strContains keyword (pyLower edu)))
    then 0.1 else 0

/-- The `relevant_certs` loop of `_calculate_qualification_score`
(job_matcher.py:152-158): the inner loop with `break` counts certifications
whose lowercased text contains some lowercased required skill. -/
def relevant_certs (cv : CVData) (job : JobPosting) : ℕ :=
  cv.certifications.countP
    (fun cert => job.skills_required.any (fun skill => strContains (pyLower skill) (pyLower cert)))

/-- The `certification_bonus` local of `_calculate_qualification_score`
(job_matcher.py:151-159), including the `if cv.certifications:` guard. -/
def certification_bonus (cv : CVData) (job : JobPosting) : ℚ :=
  if !cv.certifications.isEmpty then pymin 0.1 ((relevant_certs cv job : ℚ) * 0.05) else 0

/-- JobMatcher._calculate_qualification_score (job_matcher.py:143-174). -/
def calculate_qualification_score (tfidf : String → String → Option ℚ)
    (cv : CVData) (job : JobPosting) : ℚ × QualificationDetails :=
  let skill_similarity := calculate_skill_similarity tfidf cv.skills job.skills_required
  let experience_match := calculate_experience_match cv.experience_years job.experience_required
  let base_score := (skill_similarity * 0.6 + experience_match * 0.4) * 100
  let bonus_score := (education_bonus cv + certification_bonus cv job) * 100
  let final_score := pymin 100 (base_score + bonus_score)
  (final_score,
   { skill_similarity := skill_similarity
     experience_match := experience_match
     education_bonus := education_bonus cv
     certification_bonus := certification_bonus cv job
     base_score := base_score
     bonus_score := bonus_score })

/-- The `overqualification_penalty` local of `_calculate_competition_score`
(job_matcher.py:179-181). -/
def overqualification_penalty (cv : CVData) (job : JobPosting) : ℚ :=
  if (cv.experience_years : ℚ) > (job.experience_required : ℚ) * 1.5
    then pymin 20 (((cv.experience_years : ℚ) - (job.experience_required : ℚ)) * 2) else 0

/-- The `unique_skills_bonus` loop of `_calculate_competition_score`
(job_matcher.py:183-188): 5.0 accumulated per candidate skill containing a
specialized keyword, then capped at 20. -/
def unique_skills_bonus (cv : CVData) : ℚ :=
  pymin 20 ((cv.skills.countP (fun skill =>
    ["ai", "machine learning", "blockchain", "quantum", "cloud architecture"].any
      (fun spec => strContains spec (pyLower skill))) : ℚ) * 5)

/-- The `industry_experience_bonus` block of `_calculate_competition_score`
(job_matcher.py:190-195), including the Python truthiness guard
`if job.industry and cv.industries:` (falsy for `None`, for the empty
string, and for an empty industry list). -/
def industry_experience_bonus (cv : CVData) (job : JobPosting) : ℚ :=
  match job.industry with
  | none => 0
  | some ind =>
    if ind != "" && !cv.industries.isEmpty &&
        cv.industries.any (fun cv_industry =>
          strContains (pyLower ind) (pyLower cv_industry) || strContains (pyLower cv_industry) (pyLower ind))
      then 15 else 0

/-- The `leadership_bonus` loop of `_calculate_competition_score`
(job_matcher.py:197-202). -/
def leadership_bonus (cv : CVData) : ℚ :=
  if cv.job_titles.any (fun title =>
      ["lead", "manager", "director", "senior", "principal", "architect"].any
        (fun keyword => strContains keyword (pyLower title)))
    then 10 else 0

/-- JobMatcher._calculate_competition_score (job_matcher.py:176-215). -/
def calculate_competition_score (cv : CVData) (job : JobPosting) : ℚ × CompetitionDetails :=
  let base_competition : ℚ := 50
  let final_score := base_competition - overqualification_penalty cv job
    + unique_skills_bonus cv + industry_experience_bonus cv job + leadership_bonus cv
  (pymax 0 (pymin 100 final_score),
   { base_competition := base_competition
     overqualification_penalty := overqualification_penalty cv job
     unique_skills_bonus := unique_skills_bonus cv
     industry_experience_bonus := industry_experience_bonus cv job
     leadership_bonus := leadership_bonus cv })

/-- The `growth_indicators` list of `_calculate_strategic_score`
(job_matcher.py:221). -/
def growth_indicators : List String := ["senior", "lead", "principal", "manager", "director"]

/-- The `current_level` and `target_level` loop of `_calculate_strategic_score`
(job_matcher.py:222-229): `enumerate` over the indicators, maintaining the
maximum matched index plus one for the candidate titles, and overwriting the
target level on each job-title match (which for the ascending scan is also the
maximum).  The `cv.job_titles and` truthiness guard of the source is kept. -/
def level_scan (cv : CVData) (job : JobPosting) : ℕ × ℕ :=
  growth_indicators.enum.foldl
    (fun acc p =>
      let cur := if !cv.job_titles.isEmpty &&
          cv.job_titles.any (fun title => strContains p.2 (pyLower title))
        then Nat.max acc.1 (p.1 + 1) else acc.1
      let tgt := if strContains p.2 (pyLower job.title) then p.1 + 1 else acc.2
      (cur, tgt))
    (0, 0)

/-- The `career_growth_potential` branch of `_calculate_strategic_score`
(job_matcher.py:231-234). -/
def career_growth_potential (cv : CVData) (job : JobPosting) : ℚ :=
  if (level_scan cv job).2 > (level_scan cv job).1 then 20
  else if (level_scan cv job).2 = (level_scan cv job).1 then 10
  else 0

/-- The `job_emerging_skills` count of `_calculate_strategic_score`
(job_matcher.py:237-238). -/
def job_emerging_skills (job : JobPosting) : ℕ :=
  job.skills_required.countP (fun skill =>
    ["ai", "ml", "cloud", "devops", "kubernetes", "react", "python", "aws"].any
      (fun emerging => strContains emerging (pyLower skill)))

/-- The `skill_development_bonus` branch of `_calculate_strategic_score`
(job_matcher.py:236-240). -/
def skill_development_bonus (job : JobPosting) : ℚ :=
  if job_emerging_skills job > 0 then pymin 15 ((job_emerging_skills job : ℚ) * 3) else 0

/-- The `company_size_fit` if/elif block of `_calculate_strategic_score`
(job_matcher.py:242-248): default 5; the startup/small branch is checked
first, and when it matches the enterprise/fortune branch is not evaluated at
all (Python `elif`), even if the candidate fails the inner experience test. -/
def company_size_fit (cv : CVData) (job : JobPosting) : ℚ :=
  if strContains "startup" (pyLower job.company) || strContains "small" (pyLower job.description) then
    (if cv.experience_years < 5 then 10 else 5)
  else if strContains "enterprise" (pyLower job.company) || strContains "fortune" (pyLower job.description) then
    (if cv.experience_years > 3 then 10 else 5)
  else 5

/-- JobMatcher._calculate_strategic_score (job_matcher.py:217-262).  The
`analysis_data` parameter is accepted, and ignored, exactly as in the
source. -/
def calculate_strategic_score (cv : CVData) (job : JobPosting)
    ( _analysis_data : AnalysisData) : ℚ × StrategicDetails :=
  let base_strategic : ℚ := 60
  let final_score := base_strategic + career_growth_potential cv job
    + skill_development_bonus job + company_size_fit cv job
  (pymax 0 (pymin 100 final_score),
   { base_strategic := base_strategic
     career_growth_potential := career_growth_potential cv job
     skill_development_bonus := skill_development_bonus job
     company_size_fit := company_size_fit cv job
     current_level := (level_scan cv job).1
     target_level := (level_scan cv job).2 })

/-- Population variance of three values.  The source compares
`np.std([q, c, s]) > 20` (job_matcher.py:281-282); since the population
standard deviation is the square root of this variance and both sides are
nonnegative, that comparison holds exactly when `variance3 q c s > 400`,
which is how the test is embedded. -/
def variance3 (a b c : ℚ) : ℚ :=
  let m := (a + b + c) / 3
  ((a - m) ^ 2 + (b - m) ^ 2 + (c - m) ^ 2) / 3

/-- JobMatcher._calculate_confidence (job_matcher.py:264-285). -/
def calculate_confidence (qualification_score competition_score strategic_score : ℚ)
    (analysis_data : AnalysisData) : ℚ :=
  let base_confidence : ℚ := 70
  let base_confidence := base_confidence +
    (if qualification_score > 80 then 15
     else if qualification_score > 60 then 5
     else if qualification_score < 40 then -15
     else 0)
  let base_confidence := base_confidence +
    (if analysis_data.key_matches.length > 3 then 10 else 0)
  let base_confidence := base_confidence +
    (if analysis_data.gaps.length > 2 then -10 else 0)
  let base_confidence := base_confidence +
    (if variance3 qualification_score competition_score strategic_score > 400 then -10 else 0)
  pymax 20 (pymin 95 base_confidence)

/-- JobMatcher._determine_recommendation (job_matcher.py:287-296). -/
def determine_recommendation (overall_score confidence qualification_score : ℚ) :
    RecommendationStatus :=
  if overall_score ≥ 75 ∧ confidence ≥ 70 then RecommendationStatus.apply
  else if overall_score ≥ 60 ∧ qualification_score ≥ 60 then RecommendationStatus.apply
  else if overall_score ≥ 45 ∧ confidence ≥ 60 then RecommendationStatus.maybe
  else RecommendationStatus.skip

/-- The degraded `analysis_data` dictionary built in the `except` branch of
`analyze_job_match` (job_matcher.py:312-321), for an exception whose
`str(e)` is `e`. -/
def degraded_analysis (e : String) : AnalysisData :=
  { qualification_analysis := "Analysis error: " ++ e
    competition_analysis := "Unable to analyze competition factors"
    strategic_analysis := "Unable to analyze strategic factors"
    key_matches := []
    gaps := []
    reasoning := "Analysis failed due to error: " ++ e
    confidence_factors := [] }

/-- Python's `int()` truncation toward zero on a rational. -/
def pyInt (q : ℚ) : Int := if 0 ≤ q then ⌊q⌋ else ⌈q⌉

/-- JobMatcher.analyze_job_match (job_matcher.py:298-366).  `chain_run` is
the outcome of the LLM chain call: `Except.error e` models the call raising
with message `e`, handled by the source's `except Exception` branch. -/
def analyze_job_match (tfidf : String → String → Option ℚ)
    (chain_run : Except String AnalysisData) (cv : CVData) (job : JobPosting) : JobAnalysis :=
  let analysis_data := match chain_run with
    | Except.ok d => d
    | Except.error e => degraded_analysis e
  let qual := calculate_qualification_score tfidf cv job
  let comp := calculate_competition_score cv job
  let strat := calculate_strategic_score cv job analysis_data
  let overall_score := qual.1 * 0.6 + comp.1 * 0.25 + strat.1 * 0.15
  let confidence := calculate_confidence qual.1 comp.1 strat.1 analysis_data
  let recommendation := determine_recommendation overall_score confidence qual.1
  { id := "analysis_" ++ cv.id ++ "_" ++ job.id ++ "_" ++ toString (pyInt overall_score)
    cv_id := cv.id
    job_id := job.id
    match_score :=
      { qualification_score := qual.1
        competition_score := comp.1
        strategic_score := strat.1
        overall_score := overall_score
        confidence := confidence }
    recommendation := recommendation
    reasoning := analysis_data.reasoning
    key_matches := analysis_data.key_matches
    gaps := analysis_data.gaps
    metadata :=
      { qualification_details := qual.2
        competition_details := comp.2
        strategic_details := strat.2
        analysis_data := analysis_data } }

/-- Modelled from the claim wording for C2 (spec section 4.6): the
recommendation rule as four ordered rules, first match wins. -/
def specRecommendation (overall confidence qualification : ℚ) : RecommendationStatus :=
  if overall ≥ 75 ∧ confidence ≥ 70 then RecommendationStatus.apply
  else if overall ≥ 60 ∧ qualification ≥ 60 then RecommendationStatus.apply
  else if overall ≥ 45 ∧ confidence ≥ 60 then RecommendationStatus.maybe
  else RecommendationStatus.skip

/-- Modelled from the claim wording for C4 (spec section 4.2): the experience
staircase, with the required-years-zero and candidate-meets-requirement cases
merged into one rule as the claim phrases them. -/
def specExperienceMatch (candidate_years required_years : Int) : ℚ :=
  if required_years = 0 ∨ candidate_years ≥ required_years then 1
  else if (candidate_years : ℚ) ≥ (required_years : ℚ) * 0.8 then 0.8
  else if (candidate_years : ℚ) ≥ (required_years : ℚ) * 0.6 then 0.6
  else if (candidate_years : ℚ) ≥ (required_years : ℚ) * 0.4 then 0.4
  else 0.2

/-- Modelled from the claim wording for C4: 10 points iff some education
entry contains one of the degree keywords, case-insensitively. -/
def specEducationBonus (cv : CVData) : ℚ :=
  if cv.education.any (fun edu =>
      ["bachelor", "master", "phd", "degree"].any (fun keyword => strContains keyword (pyLower edu)))
    then 10 else 0

/-- Modelled from the claim wording for C4: min(10, 5 * number of
certifications whose text contains some required skill, case-insensitively). -/
def specCertificationBonus (cv : CVData) (job : JobPosting) : ℚ :=
  pymin 10 (5 * (cv.certifications.countP (fun cert =>
    job.skills_required.any (fun skill => strContains (pyLower skill) (pyLower cert))) : ℚ))

/-- Modelled from the claim wording for C5: min(20, 2 * (candidateYears −
requiredYears)) applied only when candidateYears > 1.5 × requiredYears. -/
def specOverqualificationPenalty (cv : CVData) (job : JobPosting) : ℚ :=
  if (cv.experience_years : ℚ) > 1.5 * (job.experience_required : ℚ)
    then pymin 20 (2 * ((cv.experience_years : ℚ) - (job.experience_required : ℚ))) else 0

/-- Modelled from the claim wording for C5: min(20, 5 * count of candidate
skills containing a specialized keyword). -/
def specUniqueSkillsBonus (cv : CVData) : ℚ :=
  pymin 20 (5 * (cv.skills.countP (fun skill =>
    ["ai", "machine learning", "blockchain", "quantum", "cloud architecture"].any
      (fun spec => strContains spec (pyLower skill))) : ℚ))

/-- Modelled from the claim wording for C5, literally: 15 iff the job
industry and some candidate industry contain each other as case-insensitive
substrings (either direction), else 0.  Note there is no non-emptiness
condition on the industry string here: that is exactly what the claim
says, and what the counterexample below refutes. -/
def specIndustryBonusClaim (cv : CVData) (job : JobPosting) : ℚ :=
  match job.industry with
  | none => 0
  | some ind =>
    if cv.industries.any (fun cv_industry =>
        strContains (pyLower ind) (pyLower cv_industry) || strContains (pyLower cv_industry) (pyLower ind))
      then 15 else 0

/-- The amended industry bonus for C5: as the claim, plus the condition that
the job industry string is non-empty (Python's truthiness guard
`if job.industry and cv.industries:`). -/
def specIndustryBonusAmended (cv : CVData) (job : JobPosting) : ℚ :=
  match job.industry with
  | none => 0
  | some ind =>
    if ind != "" && cv.industries.any (fun cv_industry =>
        strContains (pyLower ind) (pyLower cv_industry) || strContains (pyLower cv_industry) (pyLower ind))
      then 15 else 0

/-- Modelled from the claim wording for C5: 10 iff some candidate job title
contains a leadership keyword. -/
def specLeadershipBonus (cv : CVData) : ℚ :=
  if cv.job_titles.any (fun title =>
      ["lead", "manager", "director", "senior", "principal", "architect"].any
        (fun keyword => strContains keyword (pyLower title)))
    then 10 else 0

/-- The competition score exactly as claim C5 states it, with the literal
(unguarded) industry bonus. -/
def specCompetitionClaim (cv : CVData) (job : JobPosting) : ℚ :=
  pymax 0 (pymin 100 (50 - specOverqualificationPenalty cv job + specUniqueSkillsBonus cv
    + specIndustryBonusClaim cv job + specLeadershipBonus cv))

/-- Modelled from the claim wording for C6: the qualification adjustment to
the confidence base, with the middle bracket written as the claim states it
(+5 when 60 < qualification ≤ 80). -/
def specQualificationAdjustment (q : ℚ) : ℚ :=
  if q > 80 then 15
  else if 60 < q ∧ q ≤ 80 then 5
  else if q < 40 then -15
  else 0

/-- The confidence estimator exactly as claim C6 states it:
clamp(70 + a + b + c + d, 20, 95).  The standard-deviation test is embedded
as the equivalent variance test (see `variance3`). -/
def specConfidence (q c s : ℚ) (a : AnalysisData) : ℚ :=
  pymax 20 (pymin 95 (70 + specQualificationAdjustment q
    + (if a.key_matches.length > 3 then 10 else 0)
    + (if a.gaps.length > 2 then -10 else 0)
    + (if variance3 q c s > 400 then -10 else 0)))

/-- Modelled from the claim wording for C8: companySizeFit defaults to 5,
the startup/small branch (candidate experience under 5 years) is checked
first, and only when it does not signal is the enterprise/fortune branch
(candidate experience over 3 years) considered. -/
def specCompanySizeFit (cv : CVData) (job : JobPosting) : ℚ :=
  if strContains "startup" (pyLower job.company) || strContains "small" (pyLower job.description) then
    (if cv.experience_years < 5 then 10 else 5)
  else if strContains "enterprise" (pyLower job.company) || strContains "fortune" (pyLower job.description) then
    (if cv.experience_years > 3 then 10 else 5)
  else 5

/-- An all-empty CV used as a base for concrete test fixtures. -/
def baseCV : CVData :=
  { id := "cv0", name := "", content := "", skills := [], experience_years := 0
    education := [], certifications := [], job_titles := [], industries := [] }

/-- An all-empty job posting used as a base for concrete test fixtures. -/
def baseJob : JobPosting :=
  { id := "job0", url := "", title := "", company := "", location := ""
    description := "", requirements := [], skills_required := []
    experience_required := 0, salary_range := none, job_type := none, industry := none }

/-- A semantic-analysis payload with no content. -/
def emptyAnalysis : AnalysisData :=
  { qualification_analysis := "", competition_analysis := "", strategic_analysis := ""
    key_matches := [], gaps := [], reasoning := "", confidence_factors := [] }

/-- Fixture for the C5 counterexample: a candidate with one industry. -/
def cvTechIndustry : CVData := { baseCV with industries := ["tech"] }

/-- Fixture for the C5 counterexample: a posting whose industry is the empty
string (a legal value of the `Optional[str]` field, distinct from `None`). -/
def jobBlankIndustry : JobPosting := { baseJob with industry := some "" }

/-- Fixture: a candidate with 7 years of experience. -/
def cvSevenYears : CVData := { baseCV with experience_years := 7 }

/-- Fixture: a candidate with 2 years of experience. -/
def cvTwoYears : CVData := { baseCV with experience_years := 2 }

/-- Fixture for C8: a posting whose company name signals both startup and
enterprise. -/
def jobBothSignals : JobPosting := { baseJob with company := "Tech Startup Enterprise" }

/-- Fixture for C8: a posting signalling only enterprise. -/
def jobEnterpriseOnly : JobPosting := { baseJob with company := "Enterprise Corp" }

/-- Fixture for C9: a director-titled posting at a startup with five
emerging-skill requirements, maximizing the strategic pre-clamp sum. -/
def jobDirectorStartup : JobPosting :=
  { baseJob with
    title := "Director"
    company := "Startup"
    skills_required := ["Python", "AWS", "React", "DevOps", "Kubernetes"] }

theorem pymin_eq_min (a b : ℚ) : pymin a b = min a b := by
  simp [pymin, min_def]

theorem pymax_eq_max (a b : ℚ) : pymax a b = max a b := by
  simp [pymax, max_def]

theorem guard_any {α : Type} (l : List α) (p : α → Bool) :
    (!l.isEmpty && l.any p) = l.any p := by
  cases l <;> simp

theorem guard_any_left {α : Type} (a : Bool) (l : List α) (p : α → Bool) :
    ((a && !l.isEmpty) && l.any p) = (a && l.any p) := by
  cases l <;> simp

theorem matchscore_weighted (m : MatchScore)
    (h : m.overall_score = m.qualification_score * 0.6 + m.competition_score * 0.25
      + m.strategic_score * 0.15) :
    m.overall_score = 0.6 * m.qualification_score + 0.25 * m.competition_score
      + 0.15 * m.strategic_score := by
  rw [h]; ring

/-- C1: the MatchScore assembled by `analyze_job_match` always satisfies
overall_score = 0.6 * qualification_score + 0.25 * competition_score +
0.15 * strategic_score, the three dimension scores being the ones stored in
the same MatchScore; the equality is exact in the rational model. -/
theorem overall_score_weighted_sum (tfidf : String → String → Option ℚ)
    (chain_run : Except String AnalysisData) (cv : CVData) (job : JobPosting) :
    (analyze_job_match tfidf chain_run cv job).match_score.overall_score =
      0.6 * (analyze_job_match tfidf chain_run cv job).match_score.qualification_score
      + 0.25 * (analyze_job_match tfidf chain_run cv job).match_score.competition_score
      + 0.15 * (analyze_job_match tfidf chain_run cv job).match_score.strategic_score :=
  matchscore_weighted _ rfl

/-- C2: the recommendation is a pure function of (overall, confidence,
qualification) evaluated first-match-wins exactly as the spec's four ordered
rules; at the boundary, overall 75 with confidence 70 yields Apply for every
qualification, while overall 74.9 with confidence 70 falls through to rule 2
(Apply when qualification is at least 60) or rule 3 (Maybe otherwise, since
confidence 70 meets rule 3). -/
theorem determine_recommendation_spec_rule :
    (∀ overall confidence qualification : ℚ,
      determine_recommendation overall confidence qualification =
        specRecommendation overall confidence qualification) ∧
    (∀ qualification : ℚ,
      determine_recommendation 75 70 qualification = RecommendationStatus.apply) ∧
    (∀ qualification : ℚ,
      determine_recommendation (74.9 : ℚ) 70 qualification =
        if qualification ≥ 60 then RecommendationStatus.apply else RecommendationStatus.maybe) := by
  refine ⟨fun o c q => rfl, fun q => ?_, fun q => ?_⟩
  · rw [determine_recommendation, if_pos (by norm_num)]
  · rw [determine_recommendation, if_neg (by norm_num)]
    by_cases hq : q ≥ 60
    · rw [if_pos (by norm_num [hq]), if_pos hq]
    · rw [if_neg (by norm_num [hq]), if_pos (by norm_num), if_neg hq]

/-- C3: when the semantic-analysis call raises (modelled as
`Except.error e`), `analyze_job_match` still returns a complete JobAnalysis:
key_matches and gaps are empty, the reasoning text carries the failure
reason, and every numeric field is the output of the rule-based scorers
applied to the degraded (empty) analysis record. -/
theorem analyze_job_match_adapter_failure (tfidf : String → String → Option ℚ)
    (cv : CVData) (job : JobPosting) (e : String) :
    (analyze_job_match tfidf (Except.error e) cv job).key_matches = [] ∧
    (analyze_job_match tfidf (Except.error e) cv job).gaps = [] ∧
    (analyze_job_match tfidf (Except.error e) cv job).reasoning =
      "Analysis failed due to error: " ++ e ∧
    (analyze_job_match tfidf (Except.error e) cv job).cv_id = cv.id ∧
    (analyze_job_match tfidf (Except.error e) cv job).job_id = job.id ∧
    (analyze_job_match tfidf (Except.error e) cv job).match_score.qualification_score =
      (calculate_qualification_score tfidf cv job).1 ∧
    (analyze_job_match tfidf (Except.error e) cv job).match_score.competition_score =
      (calculate_competition_score cv job).1 ∧
    (analyze_job_match tfidf (Except.error e) cv job).match_score.strategic_score =
      (calculate_strategic_score cv job (degraded_analysis e)).1 ∧
    (analyze_job_match tfidf (Except.error e) cv job).match_score.overall_score =
      (calculate_qualification_score tfidf cv job).1 * 0.6 +
      (calculate_competition_score cv job).1 * 0.25 +
      (calculate_strategic_score cv job (degraded_analysis e)).1 * 0.15 ∧
    (analyze_job_match tfidf (Except.error e) cv job).match_score.confidence =
      calculate_confidence (calculate_qualification_score tfidf cv job).1
        (calculate_competition_score cv job).1
        (calculate_strategic_score cv job (degraded_analysis e)).1 (degraded_analysis e) ∧
    (degraded_analysis e).key_matches = [] ∧
    (degraded_analysis e).gaps = [] :=
  ⟨rfl, rfl, rfl, rfl, rfl, rfl, rfl, rfl, rfl, rfl, rfl, rfl⟩

theorem experience_match_eq_spec (cy ry : Int) :
    calculate_experience_match cy ry = specExperienceMatch cy ry := by
  unfold calculate_experience_match specExperienceMatch
  by_cases h0 : ry = 0
  · simp [h0]
  · by_cases h1 : cy ≥ ry
    · simp [h0, h1]
    · simp [h0, h1]

theorem education_bonus_scaled (cv : CVData) :
    education_bonus cv * 100 = specEducationBonus cv := by
  unfold education_bonus specEducationBonus
  rw [guard_any]
  split_ifs <;> norm_num

theorem cert_bonus_general (b : Bool) (r : ℕ) (hb : b = false → r = 0) :
    (if b then pymin 0.1 ((r : ℚ) * 0.05) else 0) * 100 = pymin 10 (5 * (r : ℚ)) := by
  cases b
  · rw [hb rfl]; norm_num [pymin]
  · simp only [if_pos]
    unfold pymin
    split_ifs <;> norm_num at * <;> linarith

theorem certification_bonus_scaled (cv : CVData) (job : JobPosting) :
    certification_bonus cv job * 100 = specCertificationBonus cv job := by
  have hb : (!cv.certifications.isEmpty) = false → relevant_certs cv job = 0 := by
    intro h
    have he : cv.certifications = [] := by
      cases hc : cv.certifications
      · rfl
      · rw [hc] at h; simp at h
    unfold relevant_certs
    rw [he]
    rfl
  exact cert_bonus_general (!cv.certifications.isEmpty) (relevant_certs cv job) hb

/-- C4: the qualification score equals
min(100, (skillSimilarity * 0.6 + experienceMatch * 0.4) * 100 +
educationBonus + certificationBonus) with the staircase experience match,
the 10-point degree-keyword education bonus, and the capped certification
bonus exactly as the claim states them. -/
theorem qualification_score_spec (tfidf : String → String → Option ℚ)
    (cv : CVData) (job : JobPosting) :
    (calculate_qualification_score tfidf cv job).1 =
      pymin 100 ((calculate_skill_similarity tfidf cv.skills job.skills_required * 0.6
        + specExperienceMatch cv.experience_years job.experience_required * 0.4) * 100
        + specEducationBonus cv + specCertificationBonus cv job) := by
  simp only [calculate_qualification_score]
  rw [← experience_match_eq_spec, ← education_bonus_scaled, ← certification_bonus_scaled]
  congr 1
  ring

theorem overqualification_penalty_eq_spec (cv : CVData) (job : JobPosting) :
    overqualification_penalty cv job = specOverqualificationPenalty cv job := by
  unfold overqualification_penalty specOverqualificationPenalty
  exact if_congr (by constructor <;> intro <;> linarith) (by congr 1; ring) rfl

theorem unique_skills_bonus_eq_spec (cv : CVData) :
    unique_skills_bonus cv = specUniqueSkillsBonus cv := by
  unfold unique_skills_bonus specUniqueSkillsBonus
  congr 1
  ring

theorem industry_bonus_eq_amended (cv : CVData) (job : JobPosting) :
    industry_experience_bonus cv job = specIndustryBonusAmended cv job := by
  unfold industry_experience_bonus specIndustryBonusAmended
  cases job.industry with
  | none => rfl
  | some ind => simp only [guard_any_left]

theorem leadership_bonus_eq_spec (cv : CVData) :
    leadership_bonus cv = specLeadershipBonus cv := rfl

/-- C5 counterexample: at a posting whose industry is the empty string and a
candidate with industry "tech", the code (guarded by Python truthiness)
awards no industry bonus and scores 50, while the claim's literal
industry-bonus rule (the empty string is a substring of "tech") would award
15 and score 65. -/
theorem competition_score_claim_counterexample :
    (calculate_competition_score cvTechIndustry jobBlankIndustry).1 ≠
      specCompetitionClaim cvTechIndustry jobBlankIndustry := by
  have hoq : overqualification_penalty cvTechIndustry jobBlankIndustry = 0 := by
    unfold overqualification_penalty
    norm_num [cvTechIndustry, baseCV, jobBlankIndustry, baseJob]
  have hsoq : specOverqualificationPenalty cvTechIndustry jobBlankIndustry = 0 := by
    rw [← overqualification_penalty_eq_spec]; exact hoq
  have hun : unique_skills_bonus cvTechIndustry = 0 := by
    unfold unique_skills_bonus
    norm_num [cvTechIndustry, baseCV, pymin]
  have hsun : specUniqueSkillsBonus cvTechIndustry = 0 := by
    rw [← unique_skills_bonus_eq_spec]; exact hun
  have hind : industry_experience_bonus cvTechIndustry jobBlankIndustry = 0 := by
    unfold industry_experience_bonus
    norm_num [jobBlankIndustry, baseJob]
  have hsind : specIndustryBonusClaim cvTechIndustry jobBlankIndustry = 15 := by
    unfold specIndustryBonusClaim
    have hc : (cvTechIndustry.industries.any (fun cv_industry =>
        strContains (pyLower "") (pyLower cv_industry)
        || strContains (pyLower cv_industry) (pyLower ""))) = true := by decide
    simp [jobBlankIndustry, baseJob, hc]
  have hl : leadership_bonus cvTechIndustry = 0 := by
    unfold leadership_bonus
    norm_num [cvTechIndustry, baseCV]
  have hsl : specLeadershipBonus cvTechIndustry = 0 := by
    rw [← leadership_bonus_eq_spec]; exact hl
  have hcode : (calculate_competition_score cvTechIndustry jobBlankIndustry).1 = 50 := by
    simp only [calculate_competition_score]
    rw [hoq, hun, hind, hl]
    norm_num [pymin, pymax]
  have hclaim : specCompetitionClaim cvTechIndustry jobBlankIndustry = 65 := by
    unfold specCompetitionClaim
    rw [hsoq, hsun, hsind, hsl]
    norm_num [pymin, pymax]
  rw [hcode, hclaim]
  norm_num

/-- C5 amended: the competition score is
clamp(50 − overqualificationPenalty + uniqueSkillsBonus + industryBonus +
leadershipBonus, 0, 100) exactly as the claim states, except that the
industry bonus additionally requires the job industry string to be
non-empty (Python's `if job.industry and cv.industries:` truthiness
guard). -/
theorem competition_score_amended (cv : CVData) (job : JobPosting) :
    (calculate_competition_score cv job).1 =
      pymax 0 (pymin 100 (50 - specOverqualificationPenalty cv job + specUniqueSkillsBonus cv
        + specIndustryBonusAmended cv job + specLeadershipBonus cv)) := by
  simp only [calculate_competition_score]
  rw [← overqualification_penalty_eq_spec, ← unique_skills_bonus_eq_spec,
    ← industry_bonus_eq_amended, ← leadership_bonus_eq_spec]

theorem qual_adjustment_eq (q : ℚ) :
    (if q > 80 then (15:ℚ) else if q > 60 then 5 else if q < 40 then -15 else 0) =
      specQualificationAdjustment q := by
  unfold specQualificationAdjustment
  by_cases h1 : q > 80
  · simp [h1]
  · have h80 : q ≤ 80 := not_lt.mp h1
    by_cases h2 : q > 60
    · simp [h1, h2, h80]
    · simp [h1, h2]

/-- C6: the confidence is clamp(70 + a + b + c + d, 20, 95) with the
adjustments exactly as the claim states them (the standard-deviation test
embedded as the equivalent variance test), and the result always lies in
[20, 95]. -/
theorem confidence_spec (q c s : ℚ) (a : AnalysisData) :
    calculate_confidence q c s a = specConfidence q c s a ∧
    20 ≤ calculate_confidence q c s a ∧ calculate_confidence q c s a ≤ 95 := by
  refine ⟨?_, ?_, ?_⟩
  · simp only [calculate_confidence, specConfidence]
    rw [qual_adjustment_eq]
  · simp only [calculate_confidence]
    rw [pymax_eq_max]
    exact le_max_left _ _
  · simp only [calculate_confidence]
    rw [pymax_eq_max, pymin_eq_min]
    exact max_le (by norm_num) (min_le_left _ _)

theorem count_div_bounds (m n : ℕ) (hmn : m ≤ n) (hn : 0 < n) :
    0 ≤ (m:ℚ)/(n:ℚ) ∧ (m:ℚ)/(n:ℚ) ≤ 1 := by
  constructor
  · positivity
  · rw [div_le_one (by exact_mod_cast hn)]
    exact_mod_cast hmn

theorem basic_skill_match_bounds (cv_skills job_skills : List String) :
    0 ≤ basic_skill_match cv_skills job_skills ∧ basic_skill_match cv_skills job_skills ≤ 1 := by
  unfold basic_skill_match
  by_cases h : (job_skills.map (fun skill => pyStrip (pyLower skill))).isEmpty = true
  · rw [if_pos h]
    norm_num
  · rw [if_neg h]
    apply count_div_bounds
    · exact List.countP_le_length _
    · cases hl : job_skills.map (fun skill => pyStrip (pyLower skill)) with
      | nil => rw [hl] at h; simp at h
      | cons x xs => simp

/-- C7: the skill-similarity computation is total and safe: under the
(mathematically true) assumption that the external TF-IDF cosine returns a
value in [0, 1] when it returns at all, the result is always in [0, 1];
whenever either skill list is empty the result is exactly 0; and when the
vectorization raises (tfidf returns none) on nonempty lists, the result is
exactly the substring-match fallback `basic_skill_match`. -/
theorem skill_similarity_safe (tfidf : String → String → Option ℚ)
    (cv_skills job_skills : List String)
    (h : ∀ sim : ℚ,
      tfidf (String.intercalate " " cv_skills) (String.intercalate " " job_skills) = some sim →
      0 ≤ sim ∧ sim ≤ 1) :
    (0 ≤ calculate_skill_similarity tfidf cv_skills job_skills ∧
      calculate_skill_similarity tfidf cv_skills job_skills ≤ 1) ∧
    (cv_skills = [] ∨ job_skills = [] →
      calculate_skill_similarity tfidf cv_skills job_skills = 0) ∧
    (tfidf (String.intercalate " " cv_skills) (String.intercalate " " job_skills) = none →
      cv_skills ≠ [] → job_skills ≠ [] →
      calculate_skill_similarity tfidf cv_skills job_skills =
        basic_skill_match cv_skills job_skills) := by
  unfold calculate_skill_similarity
  by_cases he : (cv_skills.isEmpty || job_skills.isEmpty) = true
  · rw [if_pos he]
    refine ⟨by norm_num, fun _ => rfl, fun hn h1 h2 => ?_⟩
    rcases (by simpa using he : cv_skills.isEmpty = true ∨ job_skills.isEmpty = true) with h3 | h3
    · exact absurd (List.isEmpty_iff.mp h3) h1
    · exact absurd (List.isEmpty_iff.mp h3) h2
  · rw [if_neg he]
    cases ht : tfidf (String.intercalate " " cv_skills) (String.intercalate " " job_skills) with
    | some sim =>
      refine ⟨h sim ht, fun hc => ?_, fun hn h1 h2 => Option.noConfusion hn⟩
      exfalso
      apply he
      rcases hc with rfl | rfl <;> simp
    | none =>
      refine ⟨basic_skill_match_bounds cv_skills job_skills, fun hc => ?_, fun _ _ _ => rfl⟩
      exfalso
      apply he
      rcases hc with rfl | rfl <;> simp

/-- Witness for C7: at a vectorizer that always raises and concrete nonempty
skill lists, the similarity is nonnegative and equals the substring-match
fallback. -/
theorem skill_similarity_safe_witness :
    0 ≤ calculate_skill_similarity (fun _ _ => none) ["python"] ["python", "java"] ∧
    calculate_skill_similarity (fun _ _ => none) ["python"] ["python", "java"] =
      basic_skill_match ["python"] ["python", "java"] :=
  ⟨(skill_similarity_safe (fun _ _ => none) ["python"] ["python", "java"]
      (fun sim hsim => Option.noConfusion hsim)).1.1,
   (skill_similarity_safe (fun _ _ => none) ["python"] ["python", "java"]
      (fun sim hsim => Option.noConfusion hsim)).2.2 rfl (by simp) (by simp)⟩

/-- C8: companySizeFit is exactly the claim's first-match-wins rule: default
5, the startup/small branch checked first, the enterprise/fortune branch only
when the startup signal is absent; concretely, a posting signalling both is
governed solely by the startup branch (a 7-year candidate gets 5, not the 10
the enterprise branch would give; a 2-year candidate gets 10), while an
enterprise-only posting gives the 7-year candidate 10, and a posting with no
signal gives the default 5. -/
theorem company_size_fit_spec :
    (∀ (cv : CVData) (job : JobPosting), company_size_fit cv job = specCompanySizeFit cv job) ∧
    company_size_fit cvSevenYears jobBothSignals = 5 ∧
    company_size_fit cvTwoYears jobBothSignals = 10 ∧
    company_size_fit cvSevenYears jobEnterpriseOnly = 10 ∧
    company_size_fit cvSevenYears baseJob = 5 := by
  refine ⟨fun cv job => rfl, ?_, ?_, ?_, ?_⟩ <;> decide

theorem career_growth_potential_bounds (cv : CVData) (job : JobPosting) :
    0 ≤ career_growth_potential cv job ∧ career_growth_potential cv job ≤ 20 := by
  unfold career_growth_potential
  split_ifs <;> norm_num

theorem skill_development_bonus_bounds (job : JobPosting) :
    0 ≤ skill_development_bonus job ∧ skill_development_bonus job ≤ 15 := by
  unfold skill_development_bonus pymin
  split_ifs with h1 h2
  · norm_num
  · constructor
    · positivity
    · linarith
  · norm_num

theorem company_size_fit_bounds (cv : CVData) (job : JobPosting) :
    5 ≤ company_size_fit cv job ∧ company_size_fit cv job ≤ 10 := by
  unfold company_size_fit
  split_ifs <;> norm_num

/-- C9: the strategic score always lies in [65, 100]: the base 60 plus a
company-size fit of at least 5 and nonnegative growth and skill-development
bonuses keep it at least 65 (so the lower clamp to 0 never acts), the
pre-clamp sum of the components never exceeds 105, and the upper clamp is
reachable: a concrete director-startup posting gives a pre-clamp sum of 105
and a final score of exactly 100. -/
theorem strategic_score_implicit_range :
    (∀ (cv : CVData) (job : JobPosting) (a : AnalysisData),
      65 ≤ (calculate_strategic_score cv job a).1 ∧
        (calculate_strategic_score cv job a).1 ≤ 100) ∧
    (∀ (cv : CVData) (job : JobPosting) (a : AnalysisData),
      (calculate_strategic_score cv job a).2.base_strategic
        + (calculate_strategic_score cv job a).2.career_growth_potential
        + (calculate_strategic_score cv job a).2.skill_development_bonus
        + (calculate_strategic_score cv job a).2.company_size_fit ≤ 105) ∧
    (calculate_strategic_score cvTwoYears jobDirectorStartup emptyAnalysis).1 = 100 ∧
    (calculate_strategic_score cvTwoYears jobDirectorStartup emptyAnalysis).2.base_strategic
      + (calculate_strategic_score cvTwoYears jobDirectorStartup emptyAnalysis).2.career_growth_potential
      + (calculate_strategic_score cvTwoYears jobDirectorStartup emptyAnalysis).2.skill_development_bonus
      + (calculate_strategic_score cvTwoYears jobDirectorStartup emptyAnalysis).2.company_size_fit
      = 105 := by
  have hgc : career_growth_potential cvTwoYears jobDirectorStartup = 20 := by
    have hls : level_scan cvTwoYears jobDirectorStartup = (0, 5) := by decide
    unfold career_growth_potential
    rw [hls]
    norm_num
  have hdc : skill_development_bonus jobDirectorStartup = 15 := by
    have hje : job_emerging_skills jobDirectorStartup = 5 := by decide
    unfold skill_development_bonus
    rw [hje]
    norm_num [pymin]
  have hfc : company_size_fit cvTwoYears jobDirectorStartup = 10 := by decide
  refine ⟨?_, ?_, ?_, ?_⟩
  · intro cv job a
    obtain ⟨g0, g20⟩ := career_growth_potential_bounds cv job
    obtain ⟨d0, d15⟩ := skill_development_bonus_bounds job
    obtain ⟨f5, f10⟩ := company_size_fit_bounds cv job
    simp only [calculate_strategic_score]
    rw [pymax_eq_max, pymin_eq_min]
    constructor
    · exact le_max_of_le_right (le_min (by norm_num) (by linarith))
    · exact max_le (by norm_num) (min_le_left _ _)
  · intro cv job a
    obtain ⟨g0, g20⟩ := career_growth_potential_bounds cv job
    obtain ⟨d0, d15⟩ := skill_development_bonus_bounds job
    obtain ⟨f5, f10⟩ := company_size_fit_bounds cv job
    simp only [calculate_strategic_score]
    linarith
  · simp only [calculate_strategic_score]
    rw [hgc, hdc, hfc]
    norm_num [pymin, pymax]
  · simp only [calculate_strategic_score]
    rw [hgc, hdc, hfc]
    norm_num

/-- C10: the confidence estimator in fact never returns less than 35: the
negative adjustments to the base 70 sum to at least −35, so the lower clamp
at 20 is never active and the result always lies in [35, 95]. -/
theorem confidence_implicit_lower_bound (q c s : ℚ) (a : AnalysisData) :
    35 ≤ calculate_confidence q c s a ∧ calculate_confidence q c s a ≤ 95 := by
  simp only [calculate_confidence]
  have h35 : (35:ℚ) ≤ 70
      + (if q > 80 then (15:ℚ) else if q > 60 then 5 else if q < 40 then -15 else 0)
      + (if a.key_matches.length > 3 then (10:ℚ) else 0)
      + (if a.gaps.length > 2 then (-10:ℚ) else 0)
      + (if variance3 q c s > 400 then (-10:ℚ) else 0) := by
    split_ifs <;> norm_num
  constructor
  · rw [pymax_eq_max, pymin_eq_min]
    exact le_max_of_le_right (le_min (by norm_num) h35)
  · rw [pymax_eq_max, pymin_eq_min]
    exact max_le (by norm_num) (min_le_left _ _)
